import Mathlib

/-!
Verification of the sandboxed task-dispatch layer of the DataWorks automation
agent.  The Python sources (`tasksB.py`, `server.py`, `evaluateB.py`) are
shallowly embedded below: strings are modelled as `List Char`, the relevant
pieces of Python's standard library (`os.path.abspath`, `str.split`,
`str.replace`, ...) are reimplemented from their documented POSIX semantics,
and each handler / endpoint becomes a total Lean function over explicit
inputs (current working directory, filesystem contents, outcomes of external
services).
-/

namespace Agent

/-! ### Python string primitives -/

/-- Membership of a character in a string, i.e. Python `c in s`. -/
def charIn (c : Char) (s : List Char) : Bool :=
  s.any (fun x => x = c)

/-- Python `haystack.startswith(prefix)`. -/
def startsWith (pre s : List Char) : Bool :=
  List.isPrefixOf pre s

/-- Python substring containment, `needle in haystack`. -/
def isSubstr (needle hay : List Char) : Bool :=
  (List.range (hay.length + 1)).any (fun i => startsWith needle (hay.drop i))

/-- Python `s.split(sep)` for a one-character separator: splits on every
occurrence, keeping empty pieces (`"a//b".split("/") = ["a","","b"]`). -/
def splitCh (sep : Char) : List Char → List (List Char)
  | [] => [[]]
  | c :: rest =>
      let r := splitCh sep rest
      if c = sep then [] :: r
      else
        match r with
        | h :: t => (c :: h) :: t
        | [] => [[c]]

/-- Python whitespace as tested by `str.strip()`. -/
def isPySpace (c : Char) : Bool :=
  c = ' ' || c = '\t' || c = '\n' || c = '\r' || c = '\x0b' || c = '\x0c'

/-- Python `s.strip()`: drop whitespace from both ends. -/
def pyStrip (s : List Char) : List Char :=
  ((s.dropWhile isPySpace).reverse.dropWhile isPySpace).reverse

/-- Python `s.replace(old, new)` for a non-empty `old` (the only way the
repository calls it): every non-overlapping occurrence, scanned left to
right, is replaced. -/
def pyReplace (s old new : List Char) : List Char :=
  if h : old.isPrefixOf s ∧ old ≠ [] then
    new ++ pyReplace (s.drop old.length) old new
  else
    match s with
    | [] => []
    | c :: rest => c :: pyReplace rest old new
termination_by s.length
decreasing_by
  · have hle : old.length ≤ s.length :=
      List.IsPrefix.length_le (Iff.mp List.isPrefixOf_iff_prefix h.1)
    have hpos : 0 < old.length := List.length_pos.mpr h.2
    simp only [List.length_drop]
    omega
  · simp

/-! ### POSIX path model (`os.path` as used by `tasksB.validate_path`)

`os.path.abspath(p)` on POSIX is `normpath(p if isabs(p) else join(getcwd(), p))`.
The functions below are transcribed from CPython's `posixpath.py`. -/

/-- One step of `posixpath.normpath`'s component loop: skip `""` and `"."`,
append ordinary components, resolve `".."` by popping when possible. -/
def normStep (initialSlashes : Nat) (acc : List (List Char)) (comp : List Char) :
    List (List Char) :=
  if comp = [] ∨ comp = ['.'] then acc
  else if comp ≠ ['.', '.'] ∨ (initialSlashes = 0 ∧ acc = []) ∨
      (acc ≠ [] ∧ acc.getLast? = some ['.', '.']) then
    acc ++ [comp]
  else if acc ≠ [] then acc.dropLast
  else acc

/-- Model of `posixpath.normpath`: collapse repeated separators and resolve `"."` and
`".."` segments textually (symbolic links are *not* consulted). -/
def normpath (path : List Char) : List Char :=
  if path = [] then ['.']
  else
    let initialSlashes : Nat :=
      if startsWith ['/', '/'] path ∧ ¬ startsWith ['/', '/', '/'] path then 2
      else if startsWith ['/'] path then 1
      else 0
    let comps := splitCh '/' path
    let newComps := comps.foldl (normStep initialSlashes) []
    let joined := List.replicate initialSlashes '/' ++ List.intercalate ['/'] newComps
    if joined = [] then ['.'] else joined

/-- Model of `posixpath.join(a, b)` for two arguments. -/
def pathJoin (a b : List Char) : List Char :=
  if startsWith ['/'] b then b
  else if a = [] ∨ a.getLast? = some '/' then a ++ b
  else a ++ '/' :: b

/-- Model of `os.path.abspath(path)` relative to an explicit working directory `cwd`
(Python reads it from the process state via `os.getcwd()`). -/
def abspath (cwd path : List Char) : List Char :=
  if startsWith ['/'] path then normpath path
  else normpath (pathJoin cwd path)

/-! ### `tasksB.validate_path` and the spec-side sandbox predicate -/

/-- Embedding of `tasksB.validate_path`: absolutize the argument and test whether the
result *textually starts with* the absolutized sandbox root `"/data"`.
(The body cannot raise on string input, so the `except` arm is dead.) -/
def validate_path (cwd filepath : List Char) : Bool :=
  let abs_path := abspath cwd filepath
  let data_dir := abspath cwd "/data".data
  startsWith data_dir abs_path

/-- Spec-side predicate, from the spec's words (§4.1 PathGuard): the
canonical absolute form of the path is the sandbox root `/data` itself or a
descendant of it (a path of the form `/data/...`). -/
def isWithinSandbox (cwd filepath : List Char) : Bool :=
  let c := abspath cwd filepath
  c = "/data".data ∨ startsWith "/data/".data c

/-! ### `tasksB.security_check` -/

/-- A handler argument as seen by the decorator: either a Python `str` or a
value of any other type (which the decorator ignores). -/
inductive Arg where
  | str (s : List Char)
  | other
deriving DecidableEq

/-- A registered handler: its name and its body.  The body is abstract (the
concrete bodies are external collaborators); `R` is its return type. -/
structure Handler (R : Type) where
  name : List Char
  run : List Arg → R

/-- The test performed on each argument inside `security_check`'s loop:
the argument is a `str`, contains `os.path.sep` (`'/'`), and fails
`validate_path`. -/
def badArg (cwd : List Char) (a : Arg) : Bool :=
  match a with
  | .str s => charIn '/' s && ! validate_path cwd s
  | .other => false

/-- Text of an argument, used to build the `PermissionError` message. -/
def argText : Arg → List Char
  | .str s => s
  | .other => []

/-- The `PermissionError` message raised by `security_check`:
`f"Access denied: {arg} is outside /data directory"`. -/
def accessDeniedMsg (a : Arg) : List Char :=
  "Access denied: ".data ++ argText a ++ " is outside /data directory".data

/-- Embedding of `tasksB.security_check`: scan the arguments (positional followed by
keyword values, flattened into one list exactly as `args + tuple(kwargs.values())`
does); the first failing argument raises `PermissionError` (modelled as
`Except.error` carrying the message) before `func` is entered; otherwise the
handler runs on the original arguments and its value is returned. -/
def security_check {R : Type} (cwd : List Char) (h : Handler R) (args : List Arg) :
    Except (List Char) R :=
  match args.find? (badArg cwd) with
  | some a => .error (accessDeniedMsg a)
  | none => .ok (h.run args)

/-! ### `tasksB.transcribe_audio` (B8) -/

/-- Outcome of a handler call, with a distinguished constructor for Python's
`NotImplementedError`, so that we can state which handlers do (not) signal
it.  The repository's handlers return booleans. -/
inductive HandlerOutcome where
  | boolResult (b : Bool)
  | notImplementedSignal
deriving DecidableEq

/-- Outcome of the external work inside `transcribe_audio`'s `try` block
(importing `openai`, opening the audio file, the Whisper call, writing the
transcript): either it all succeeds yielding the transcript text, or some
step raises an exception with a message. -/
inductive ExtCall where
  | ok (text : List Char)
  | exn (msg : List Char)

/-- Body of `tasksB.transcribe_audio`: on success of the external work it
returns `True`; on *any* exception it prints and returns `False`.  There is
no `raise NotImplementedError` anywhere in the body. -/
def transcribe_audio_body (ext : ExtCall) : HandlerOutcome :=
  match ext with
  | .ok _ => .boolResult true
  | .exn _ => .boolResult false

/-- The decorated handler `transcribe_audio = security_check(transcribe_audio_body)`,
called with positional arguments `(audio_path, output_path)`. -/
def transcribe_audio (cwd : List Char) (ext : ExtCall)
    (audio_path output_path : List Char) : Except (List Char) HandlerOutcome :=
  security_check cwd
    ⟨"transcribe_audio".data, fun _ => transcribe_audio_body ext⟩
    [.str audio_path, .str output_path]

/-- Recognizer for the NotImplemented signal on a (possibly rejected)
handler result. -/
def isNotImplementedSignal : Except (List Char) HandlerOutcome → Bool
  | .ok .notImplementedSignal => true
  | _ => false

/-! ### `server.run_task` (the task dispatcher, POST `/run`) -/

/-- Python exceptions as they matter to the dispatcher: FastAPI
`HTTPException(code, detail)` versus every other exception carrying its
`str()` rendering (`PermissionError` from the sandbox gate, handler I/O
failures, `NotImplementedError` from stubs, ...). -/
inductive Exn where
  | http (code : Nat) (detail : List Char)
  | plain (msg : List Char)

/-- Python `str(e)`: Starlette's `HTTPException.__str__` renders
`f"{status_code}: {detail}"`; for ordinary exceptions the message itself. -/
def strExn : Exn → List Char
  | .http code detail => Nat.toDigits 10 code ++ ": ".data ++ detail
  | .plain msg => msg

/-- The HTTP response produced for the caller of `/run`: either the success
JSON (`{"status": "success"}`, with an optional `"result"` payload), or the
error response FastAPI builds from a raised `HTTPException`. -/
inductive Response where
  | success (result : Option (List Char))
  | httpError (code : Nat) (detail : List Char)
deriving DecidableEq

/-- The behaviours of the ten `tasksA` handlers the dispatcher can invoke.
Their bodies live outside this repository's dispatch core; each call either
returns (for `A1`, with a result value) or raises an exception. -/
structure Handlers where
  A1 : Except Exn (List Char)
  A2 : Except Exn Unit
  A3 : Except Exn Unit
  A4 : Except Exn Unit
  A5 : Except Exn Unit
  A6 : Except Exn Unit
  A7 : Except Exn Unit
  A8 : Except Exn Unit
  A9 : Except Exn Unit
  A10 : Except Exn Unit

/-- The `try` block of `server.run_task`: strip the description, walk the
`if`/`elif` chain of substring tests in order, run the first matching
handler, and build the success payload; no branch matching raises
`HTTPException(400, "Unknown task")`. -/
def run_task_body (h : Handlers) (task0 : List Char) : Except Exn (Option (List Char)) :=
  let task := pyStrip task0
  if isSubstr "Install `uv`".data task then
    h.A1.map (fun r => some r)
  else if isSubstr "format.md".data task then
    h.A2.map (fun _ => none)
  else if isSubstr "dates.txt".data task && isSubstr "dates-wednesdays.txt".data task then
    h.A3.map (fun _ => none)
  else if isSubstr "contacts.json".data task && isSubstr "contacts-sorted.json".data task then
    h.A4.map (fun _ => none)
  else if isSubstr "logs-recent.txt".data task then
    h.A5.map (fun _ => none)
  else if isSubstr "docs/index.json".data task then
    h.A6.map (fun _ => none)
  else if isSubstr "email.txt".data task && isSubstr "email-sender.txt".data task then
    h.A7.map (fun _ => none)
  else if isSubstr "credit_card.png".data task && isSubstr "credit-card.txt".data task then
    h.A8.map (fun _ => none)
  else if isSubstr "comments.txt".data task && isSubstr "comments-similar.txt".data task then
    h.A9.map (fun _ => none)
  else if isSubstr "ticket-sales.db".data task && isSubstr "ticket-sales-gold.txt".data task then
    h.A10.map (fun _ => none)
  else
    .error (.http 400 "Unknown task".data)

/-- Embedding of `server.run_task` as observed by the HTTP caller: the `except Exception`
arm turns *every* exception escaping the `try` block into
`HTTPException(400, str(e))`, which FastAPI renders as an HTTP 400 error
response rather than an unhandled fault. -/
def run_task (h : Handlers) (task : List Char) : Response :=
  match run_task_body h task with
  | .ok r => .success r
  | .error e => .httpError 400 (strExn e)

/-- The ten dispatch targets of `server.run_task`, in registration order. -/
inductive TaskId
  | A1 | A2 | A3 | A4 | A5 | A6 | A7 | A8 | A9 | A10
deriving DecidableEq

/-- The resolution component of `server.run_task`'s `if`/`elif` chain: which
handler a (raw) description selects, if any. -/
def resolveTask (task0 : List Char) : Option TaskId :=
  let task := pyStrip task0
  if isSubstr "Install `uv`".data task then some .A1
  else if isSubstr "format.md".data task then some .A2
  else if isSubstr "dates.txt".data task && isSubstr "dates-wednesdays.txt".data task then some .A3
  else if isSubstr "contacts.json".data task && isSubstr "contacts-sorted.json".data task then some .A4
  else if isSubstr "logs-recent.txt".data task then some .A5
  else if isSubstr "docs/index.json".data task then some .A6
  else if isSubstr "email.txt".data task && isSubstr "email-sender.txt".data task then some .A7
  else if isSubstr "credit_card.png".data task && isSubstr "credit-card.txt".data task then some .A8
  else if isSubstr "comments.txt".data task && isSubstr "comments-similar.txt".data task then some .A9
  else if isSubstr "ticket-sales.db".data task && isSubstr "ticket-sales-gold.txt".data task then some .A10
  else none

/-- The registry view of the same chain: each spec is a task id together
with the markers that must all occur in the description, listed in
registration order. -/
def specs : List (TaskId × List (List Char)) :=
  [(.A1, ["Install `uv`".data]),
   (.A2, ["format.md".data]),
   (.A3, ["dates.txt".data, "dates-wednesdays.txt".data]),
   (.A4, ["contacts.json".data, "contacts-sorted.json".data]),
   (.A5, ["logs-recent.txt".data]),
   (.A6, ["docs/index.json".data]),
   (.A7, ["email.txt".data, "email-sender.txt".data]),
   (.A8, ["credit_card.png".data, "credit-card.txt".data]),
   (.A9, ["comments.txt".data, "comments-similar.txt".data]),
   (.A10, ["ticket-sales.db".data, "ticket-sales-gold.txt".data])]

/-- A spec matches a (stripped) description when all its markers occur in
it as substrings. -/
def matchesSpec (task : List Char) (s : TaskId × List (List Char)) : Bool :=
  s.2.all (fun m => isSubstr m task)

/-- Declarative resolution: the first spec, in registration order, all of
whose markers occur in the whitespace-trimmed description. -/
def firstMatch (task : List Char) : Option TaskId :=
  (specs.find? (matchesSpec (pyStrip task))).map (fun s => s.1)

/-! ### `server.read_file` (GET `/read`) -/

/-- The filesystem as the endpoint sees it: an association of path names as
passed to `open` (relative names are resolved against the server's working
directory by the OS) to file contents. -/
abbrev FS := List (List Char × List Char)

/-- Contents of the file a name denotes, if it exists. -/
def lookupFS (fs : FS) (p : List Char) : Option (List Char) :=
  (fs.find? (fun e => e.1 = p)).map (fun e => e.2)

/-- The response of GET `/read`: the raw contents with a 200, or the 404
`HTTPException` from the `except FileNotFoundError` arm.  (The generic
`except Exception` → 500 arm is not reachable in this model, where `open`
either succeeds or raises `FileNotFoundError`.) -/
inductive ReadResponse where
  | content (body : List Char)
  | notFound (detail : List Char)
deriving DecidableEq

/-- Embedding of `server.read_file`: rewrite every occurrence of `"/data/"` in the
requested path to `"data/"` and open the result, returning its contents; a
missing file yields 404 with a detail naming the *original* path.  No
sandbox predicate is consulted anywhere in the body. -/
def read_file (fs : FS) (path : List Char) : ReadResponse :=
  let relative_path := pyReplace path "/data/".data "data/".data
  match lookupFS fs relative_path with
  | some content => .content content
  | none => .notFound ("File not found: ".data ++ path)

/-! ### `tasksB.filter_csv` (B10, POST `/filter_csv`)

The claim under test concerns text columns, so cells are strings; a missing
cell models a pandas `NaN`.  `Series.str.contains(pat, na=False)` is called
with its default `regex=True`, i.e. it performs `re.search(pat, cell)`. -/

/-- A row of the loaded CSV: column name to cell value; absent column models
a `NaN` cell. -/
abbrev Row := List (List Char × List Char)

/-- The cell of `r` in column `c`, if present. -/
def getCol (r : Row) (c : List Char) : Option (List Char) :=
  (r.find? (fun e => e.1 = c)).map (fun e => e.2)

/-- Lexicographic order on strings, as pandas compares object-dtype (text)
columns. -/
def charsLt : List Char → List Char → Bool
  | [], [] => false
  | [], _ :: _ => true
  | _ :: _, [] => false
  | a :: as, b :: bs => if a = b then charsLt as bs else decide (a < b)

/-- Models Python regular-expression matching anchored at the start of the
candidate, for the fragment of patterns made of literal characters and the
`'.'` metacharacter (each pattern character consumes exactly one candidate
character; `'.'` matches any character). -/
def reMatchHere : List Char → List Char → Bool
  | [], _ => true
  | _ :: _, [] => false
  | p :: ps, c :: cs => (p = '.' || p = c) && reMatchHere ps cs

/-- Models Python `re.search(pat, s)` (truthiness) for the same fragment:
the pattern matches at some position of `s`. -/
def reSearch (pat s : List Char) : Bool :=
  (List.range (s.length + 1)).any (fun i => reMatchHere pat (s.drop i))

/-- The comparison operator of one filter rule; `other` stands for any
string that is none of the four recognized ones (no branch fires and the
frame is left unchanged). -/
inductive Op where
  | eq | gt | lt | contains | other
deriving DecidableEq

/-- One element of the request's `"filters"` list. -/
structure FilterRule where
  column : List Char
  value : List Char
  op : Op

/-- One iteration of `filter_csv`'s loop, `df = df[mask]`: pandas boolean
masking keeps exactly the rows satisfying the predicate, in order.  A `NaN`
cell compares false under every operator (`na=False` for `contains`). -/
def applyRule (rows : List Row) (rule : FilterRule) : List Row :=
  match rule.op with
  | .eq => rows.filter (fun r => getCol r rule.column == some rule.value)
  | .gt => rows.filter (fun r =>
      match getCol r rule.column with
      | some c => charsLt rule.value c
      | none => false)
  | .lt => rows.filter (fun r =>
      match getCol r rule.column with
      | some c => charsLt c rule.value
      | none => false)
  | .contains => rows.filter (fun r =>
      match getCol r rule.column with
      | some c => reSearch rule.value c
      | none => false)
  | .other => rows

/-- The filtering core of `tasksB.filter_csv`: apply the rules in request
order to the loaded rows; the surviving rows are serialized back in frame
order. -/
def filter_csv (rows : List Row) (rules : List FilterRule) : List Row :=
  rules.foldl applyRule rows

/-- Filtering as the claim words it: keep the rows whose cell in the column
contains the filter value *as a substring*.  Stated for comparison with
`filter_csv`. -/
def substrContainsFilter (rows : List Row) (col v : List Char) : List Row :=
  rows.filter (fun r =>
    match getCol r col with
    | some c => isSubstr v c
    | none => false)

/-! ## Theorems -/

/-- Any string occurs as a substring of any text that embeds it between a
prefix and a suffix. -/
theorem isSubstr_append_middle (pre s post : List Char) :
    isSubstr s (pre ++ s ++ post) = true := by
  unfold isSubstr
  rw [List.any_eq_true]
  refine ⟨pre.length, ?_, ?_⟩
  · rw [List.mem_range]
    simp only [List.length_append]
    omega
  · rw [List.append_assoc, List.drop_left]
    unfold startsWith
    exact Iff.mpr List.isPrefixOf_iff_prefix (List.prefix_append s post)

/-- Claim C1, evaluated on the code (status: code bug).  `validate_path`
compares the absolutized argument with the sandbox root by *raw string
prefix*, so the sibling directory `/data_evil/x` — whose canonical form is
neither `/data` nor a descendant of it — is accepted.  (Traversal segments
alone are handled: `/data/../etc/passwd` is rejected, since `os.path.abspath`
normalizes `..` textually.) -/
theorem validate_path_prefix_bypass :
    validate_path "/app".data "/data_evil/x".data = true ∧
    isWithinSandbox "/app".data "/data_evil/x".data = false ∧
    validate_path "/app".data "/data/../etc/passwd".data = false := by
  refine ⟨by decide, by decide, by decide⟩

/-- Claim C2: when some argument is a string that contains the path separator
and fails `validate_path`, the wrapped call evaluates to the
`PermissionError` (an `Except.error`), and the outcome is the same for
*every* handler body — in particular the body is never entered and produces
no side effect. -/
theorem security_check_rejects_before_handler {R : Type} (cwd : List Char)
    (args : List Arg) (hbad : args.any (badArg cwd) = true) (h h' : Handler R) :
    security_check cwd h args = security_check cwd h' args ∧
    ∃ msg, security_check cwd h args = Except.error msg := by
  obtain ⟨a, hmem, ha⟩ := List.any_eq_true.mp hbad
  have hsome : (args.find? (badArg cwd)).isSome := by
    rw [List.find?_isSome]
    exact ⟨a, hmem, ha⟩
  obtain ⟨b, hb⟩ := Option.isSome_iff_exists.mp hsome
  constructor
  · simp [security_check, hb]
  · exact ⟨accessDeniedMsg b, by simp [security_check, hb]⟩

/-- Witness for the rejection theorem of claim C2: a save-path of
`/etc/passwd` is rejected identically for two different handler bodies. -/
theorem security_check_rejects_witness :
    security_check "/app".data ⟨"fetch_api_data".data, fun _ => (1 : Nat)⟩
        [Arg.str "/etc/passwd".data]
      = security_check "/app".data ⟨"fetch_api_data".data, fun _ => (2 : Nat)⟩
        [Arg.str "/etc/passwd".data] ∧
    ∃ msg, security_check "/app".data ⟨"fetch_api_data".data, fun _ => (1 : Nat)⟩
        [Arg.str "/etc/passwd".data] = Except.error msg :=
  security_check_rejects_before_handler "/app".data [Arg.str "/etc/passwd".data]
    (by decide) _ _

/-- Claim C7: when no string argument containing the path separator fails the
sandbox predicate, the wrapped handler receives the original argument list
unchanged and its return value is passed through verbatim. -/
theorem security_check_passthrough {R : Type} (cwd : List Char) (h : Handler R)
    (args : List Arg) (hok : ∀ a ∈ args, badArg cwd a = false) :
    security_check cwd h args = Except.ok (h.run args) := by
  have hfind : args.find? (badArg cwd) = none := by
    rw [List.find?_eq_none]
    intro a hmem
    simp [hok a hmem]
  simp [security_check, hfind]

/-- Witness for the passthrough theorem of claim C7: an in-sandbox save path
plus a non-string argument flow through to the handler, whose value is
returned. -/
theorem security_check_passthrough_witness :
    security_check "/app".data ⟨"process_image".data, fun args => args.length⟩
        [Arg.str "/data/input.jpg".data, Arg.str "/data/output.jpg".data, Arg.other]
      = Except.ok 3 :=
  security_check_passthrough "/app".data
    ⟨"process_image".data, fun args => args.length⟩
    [Arg.str "/data/input.jpg".data, Arg.str "/data/output.jpg".data, Arg.other]
    (by decide)

/-- Claim C8, counterexample (the claim as stated is false).  The `PermissionError` text produced
for the rejected argument `/etc/passwd` of handler `fetch_api_data` is
exactly the formatted string of the source, and the handler's name does not
occur in it. -/
theorem security_check_message_omits_handler_cex :
    security_check "/app".data ⟨"fetch_api_data".data, fun _ => (0 : Nat)⟩
        [Arg.str "/etc/passwd".data, Arg.str "/data/out.json".data]
      = Except.error (accessDeniedMsg (Arg.str "/etc/passwd".data)) ∧
    isSubstr "fetch_api_data".data (accessDeniedMsg (Arg.str "/etc/passwd".data))
      = false := by
  refine ⟨by rfl, by decide⟩

/-- Claim C8 as amended: a rejection names the offending argument — the
message is `"Access denied: {arg} is outside /data directory"`, which
contains the argument's text — but not the handler. -/
theorem security_check_message_names_argument {R : Type} (cwd : List Char)
    (h : Handler R) (args : List Arg) (a : Arg)
    (hfind : args.find? (badArg cwd) = some a) :
    security_check cwd h args = Except.error (accessDeniedMsg a) ∧
    isSubstr (argText a) (accessDeniedMsg a) = true := by
  constructor
  · simp [security_check, hfind]
  · exact isSubstr_append_middle "Access denied: ".data (argText a)
      " is outside /data directory".data

/-- Witness for the amended theorem of claim C8 at the offending argument
`/etc/passwd`. -/
theorem security_check_message_names_argument_witness :
    security_check "/app".data ⟨"scrape_website".data, fun _ => (0 : Nat)⟩
        [Arg.str "/etc/passwd".data]
      = Except.error (accessDeniedMsg (Arg.str "/etc/passwd".data)) ∧
    isSubstr (argText (Arg.str "/etc/passwd".data))
        (accessDeniedMsg (Arg.str "/etc/passwd".data)) = true :=
  security_check_message_names_argument "/app".data
    ⟨"scrape_website".data, fun _ => (0 : Nat)⟩
    [Arg.str "/etc/passwd".data] (Arg.str "/etc/passwd".data) (by decide)

/-- Claim C10, counterexample (the claim as stated is false).  A first argument `/data_evil/resource`
contains the separator and its absolutized form does not lie under `/data`,
yet the wrapped call is *not* rejected: `validate_path`'s raw prefix test
accepts it and the handler body runs (the spy returns `true`). -/
theorem security_check_nonpath_prefix_cex :
    charIn '/' "/data_evil/resource".data = true ∧
    isWithinSandbox "/app".data "/data_evil/resource".data = false ∧
    security_check "/app".data ⟨"fetch_api_data".data, fun _ => true⟩
        [Arg.str "/data_evil/resource".data, Arg.str "/data/out.json".data]
      = Except.ok true := by
  refine ⟨by decide, by decide, by rfl⟩

/-- Claim C10 as amended: the gate tests *every* string argument containing
`os.path.sep` — URLs and query strings included — against `validate_path`;
whenever the first argument (e.g. `fetch_api_data`'s `url`) contains `'/'`
and fails `validate_path`, the call raises `PermissionError` naming that
argument, identically for every handler body, so the body (and any network
request in it) never runs. -/
theorem security_check_blocks_failing_url {R : Type} (cwd url save_path : List Char)
    (hsep : charIn '/' url = true) (hfail : validate_path cwd url = false)
    (h : Handler R) :
    security_check cwd h [Arg.str url, Arg.str save_path]
      = Except.error (accessDeniedMsg (Arg.str url)) := by
  have hbad : badArg cwd (Arg.str url) = true := by
    simp [badArg, hsep, hfail]
  have hfind : [Arg.str url, Arg.str save_path].find? (badArg cwd)
      = some (Arg.str url) := by
    rw [List.find?_cons_of_pos _ hbad]
  simp [security_check, hfind]

/-- Witness for the amended theorem of claim C10: a well-formed external
URL passed to `fetch_api_data` is rejected before any network request. -/
theorem security_check_blocks_failing_url_witness :
    security_check "/app".data ⟨"fetch_api_data".data, fun _ => true⟩
        [Arg.str "https://jsonplaceholder.typicode.com/todos/1".data,
         Arg.str "/data/api.json".data]
      = Except.error (accessDeniedMsg
          (Arg.str "https://jsonplaceholder.typicode.com/todos/1".data)) :=
  security_check_blocks_failing_url "/app".data
    "https://jsonplaceholder.typicode.com/todos/1".data "/data/api.json".data
    (by decide) (by decide) ⟨"fetch_api_data".data, fun _ => true⟩

/-- Claim C3, counterexample (the claim as stated is false).  GET `/read` performs no sandbox
check: for the out-of-sandbox path `/etc/passwd` (rejected by both the
spec's predicate and even the code's own `validate_path`) the endpoint
returns the file's raw contents, not a denial signal. -/
theorem read_file_no_sandbox_check_cex :
    isWithinSandbox "/app".data "/etc/passwd".data = false ∧
    validate_path "/app".data "/etc/passwd".data = false ∧
    read_file [("/etc/passwd".data, "root:x:0:0:root:/root:/bin/bash".data)]
        "/etc/passwd".data
      = ReadResponse.content "root:x:0:0:root:/root:/bin/bash".data := by
  refine ⟨by decide, by decide, ?_⟩
  simp [read_file, pyReplace, lookupFS, List.find?]

/-- Claim C3 as amended: the endpoint applies no sandbox predicate at all — it
rewrites every occurrence of `"/data/"` in the request to `"data/"` and
serves whatever file the rewritten name denotes (in-sandbox or not); only
when that file does not exist does it answer with the 404 not-found signal
naming the original path. -/
theorem read_file_amended (fs : FS) (path : List Char) :
    (∃ c, lookupFS fs (pyReplace path "/data/".data "data/".data) = some c ∧
        read_file fs path = ReadResponse.content c) ∨
    (lookupFS fs (pyReplace path "/data/".data "data/".data) = none ∧
        read_file fs path = ReadResponse.notFound ("File not found: ".data ++ path)) := by
  simp only [read_file]
  cases hl : lookupFS fs (pyReplace path "/data/".data "data/".data) with
  | some c => exact Or.inl ⟨c, rfl, rfl⟩
  | none => exact Or.inr ⟨rfl, rfl⟩

/-- Claim C4: the dispatcher is total and every exception raised inside it —
sandbox `PermissionError`s surfacing from handlers, handler failures,
stub signals, and the dispatcher's own `HTTPException(400, "Unknown task")`
— is converted at the boundary into the HTTP 400 error response carrying
the exception's message; no handler behaviour makes `run_task` anything
other than a success envelope or such an error envelope. -/
theorem run_task_errors_converted (h : Handlers) (task : List Char) :
    (∃ r, run_task h task = Response.success r) ∨
    (∃ e, run_task_body h task = Except.error e ∧
        run_task h task = Response.httpError 400 (strExn e)) := by
  unfold run_task
  cases hb : run_task_body h task with
  | ok r => exact Or.inl ⟨r, rfl⟩
  | error e => exact Or.inr ⟨e, rfl, rfl⟩

/-- Claim C5: the `if`/`elif` chain of `server.run_task` implements
first-match resolution over the registry in registration order: for every
description, the selected operation is the first spec all of whose markers
occur in the whitespace-trimmed description.  Resolution is a pure function
of the description, so repeated dispatch against the unchanged registry
picks the same operation, and a description matching several specs resolves
to the first-registered one. -/
theorem resolveTask_eq_first_match (task : List Char) :
    resolveTask task = firstMatch task := by
  simp only [resolveTask, firstMatch, specs, matchesSpec, List.all_cons,
    List.all_nil, Bool.and_true, List.find?_cons, List.find?_nil]
  cases hc1 : isSubstr "Install `uv`".data (pyStrip task) with
  | true => rfl
  | false =>
  cases hc2 : isSubstr "format.md".data (pyStrip task) with
  | true => rfl
  | false =>
  cases hc3 : isSubstr "dates.txt".data (pyStrip task) &&
      isSubstr "dates-wednesdays.txt".data (pyStrip task) with
  | true => rfl
  | false =>
  cases hc4 : isSubstr "contacts.json".data (pyStrip task) &&
      isSubstr "contacts-sorted.json".data (pyStrip task) with
  | true => rfl
  | false =>
  cases hc5 : isSubstr "logs-recent.txt".data (pyStrip task) with
  | true => rfl
  | false =>
  cases hc6 : isSubstr "docs/index.json".data (pyStrip task) with
  | true => rfl
  | false =>
  cases hc7 : isSubstr "email.txt".data (pyStrip task) &&
      isSubstr "email-sender.txt".data (pyStrip task) with
  | true => rfl
  | false =>
  cases hc8 : isSubstr "credit_card.png".data (pyStrip task) &&
      isSubstr "credit-card.txt".data (pyStrip task) with
  | true => rfl
  | false =>
  cases hc9 : isSubstr "comments.txt".data (pyStrip task) &&
      isSubstr "comments-similar.txt".data (pyStrip task) with
  | true => rfl
  | false =>
  cases hc10 : isSubstr "ticket-sales.db".data (pyStrip task) &&
      isSubstr "ticket-sales-gold.txt".data (pyStrip task) with
  | true => rfl
  | false => rfl

/-- Claim C6, evaluated on the code (status: code bug; the code violates the claim and its own test harness).  The
audio handler never produces the NotImplemented signal: for every working
directory, external outcome and argument pair, its result is a boolean (or
a `PermissionError` from the gate); on the concrete failing input — a call
with in-sandbox paths whose external transcription step raises — it returns
plain `False`, indistinguishable from a generic handler failure, while
`evaluateB.evaluate_B8` passes only if `NotImplementedError` is raised. -/
theorem transcribe_audio_never_not_implemented :
    (∀ (cwd : List Char) (ext : ExtCall) (audio_path output_path : List Char),
        isNotImplementedSignal (transcribe_audio cwd ext audio_path output_path)
          = false) ∧
    transcribe_audio "/app".data (ExtCall.exn "No module named openai".data)
        "/data/audio.mp3".data "/data/transcript.txt".data
      = Except.ok (HandlerOutcome.boolResult false) := by
  constructor
  · intro cwd ext a o
    unfold transcribe_audio security_check
    cases hfind : [Arg.str a, Arg.str o].find? (badArg cwd) with
    | some x => simp [isNotImplementedSignal]
    | none => cases ext <;> simp [isNotImplementedSignal, transcribe_audio_body]
  · rfl

/-- Claim C9, counterexample (the claim as stated is false).  pandas `Series.str.contains`
defaults to `regex=True`, so the filter value is a regular expression, not
a literal substring: filtering the 3-row dataset on column `name` with
value `"a.c"` keeps `"abc"` and `"a-c"` (the `.` matches any character),
while no cell contains `"a.c"` as a substring. -/
theorem filter_contains_regex_cex :
    filter_csv
        [[("name".data, "abc".data)], [("name".data, "a-c".data)],
         [("name".data, "xyz".data)]]
        [⟨"name".data, "a.c".data, Op.contains⟩]
      = [[("name".data, "abc".data)], [("name".data, "a-c".data)]] ∧
    substrContainsFilter
        [[("name".data, "abc".data)], [("name".data, "a-c".data)],
         [("name".data, "xyz".data)]]
        "name".data "a.c".data = [] := by
  refine ⟨by decide, by decide⟩

/-- Claim C9 as amended: a `contains` filter keeps exactly the rows whose cell
in the column matches the value as a regular expression (Python
`re.search`, the default `regex=True` of pandas `str.contains`; for values
without regex metacharacters this coincides with substring containment),
with `NaN` cells excluded (`na=False`), and the surviving rows appear in
their original order (the result is a sublist of the input containing
precisely the matching rows). -/
theorem filter_contains_amended (rows : List Row) (col v : List Char) :
    filter_csv rows [⟨col, v, Op.contains⟩]
      = rows.filter (fun r =>
          match getCol r col with
          | some c => reSearch v c
          | none => false) ∧
    (filter_csv rows [⟨col, v, Op.contains⟩]).Sublist rows ∧
    ∀ r, r ∈ filter_csv rows [⟨col, v, Op.contains⟩] ↔
        r ∈ rows ∧ (match getCol r col with
          | some c => reSearch v c
          | none => false) = true := by
  have hdef : filter_csv rows [⟨col, v, Op.contains⟩]
      = rows.filter (fun r =>
          match getCol r col with
          | some c => reSearch v c
          | none => false) := rfl
  refine ⟨hdef, ?_, ?_⟩
  · rw [hdef]
    exact List.filter_sublist rows
  · intro r
    rw [hdef, List.mem_filter]

end Agent
